import Mathlib

/-!
Shallow embedding of the rc-screen firmware (src/rc-screen.cc): the Clock
arithmetic, the Screen state machine, the infrared frame decoder and the
Monoflop, together with theorems settling the specification claims.

Machine integers: `Clock::cycle_t` is a 16-bit unsigned counter, embedded as
`Nat` with explicit mod-2^16 wraparound subtraction (`sub16`); the screen
position `pos_` is a signed `short`, embedded as `Int` (the claims only
compare it against the two stop thresholds and assign constants to it, so
16-bit wraparound is never exercised).
-/

namespace RcScreen

/-- Wraparound-safe unsigned 16-bit subtraction `a - b` on cycle counters,
as performed by the C expressions `Clock::now() - last_update_time_` and
`Clock::now() - trigger_time_` (both operands are `unsigned short`). -/
def sub16 (a b : Nat) : Nat :=
  (a % 65536 + 65536 - b % 65536) % 65536

/-- `Clock::ms_to_cycles(ms)`: `ms * (F_CPU / 1024) / 1000` with
`F_CPU = 8000000`, truncated to `cycle_t` (unsigned short). -/
def ms_to_cycles (ms : Nat) : Nat :=
  ms * (8000000 / 1024) / 1000 % 65536

/-- `Screen::Direction`. -/
inductive Direction where
  | DIR_NEUTRAL
  | DIR_UP
  | DIR_DOWN
deriving DecidableEq, Repr

/-- `Screen::ErrorType`. -/
inductive ErrorType where
  | ERR_NONE
  | ERR_SWITCH
  | ERR_ROTATION
deriving DecidableEq, Repr

/-- `Screen::SCREEN_UP_STOP_THRESHOLD`. -/
def SCREEN_UP_STOP_THRESHOLD : Int := -4

/-- `Screen::SCREEN_DN_STOP_THRESHOLD`. -/
def SCREEN_DN_STOP_THRESHOLD : Int := 258

/-- The environment a Screen operation reads: the current clock value
(`Clock::now()`) and the endswitch input line (`endswitch_in()`). -/
structure Env where
  now : Nat
  endswitch : Bool
deriving DecidableEq, Repr

/-- The fields of class `Screen`, together with the two motor output lines
it drives (`OUT_MOT_UP_B` on PORTB and `OUT_MOT_DN_A` on PORTA). -/
structure Screen where
  error : ErrorType
  motor_dir : Direction
  pos : Int
  last_update_time : Nat
  mot_up : Bool
  mot_dn : Bool
deriving DecidableEq, Repr

/-- The `Screen()` constructor: `error_(ERR_NONE), motor_dir_(DIR_NEUTRAL),
pos_(0)`. `last_update_time_` is not in the initializer list and the motor
output lines are whatever the platform set them to, so both are parameters. -/
def screenInit (l0 : Nat) (up0 dn0 : Bool) : Screen :=
  { error := .ERR_NONE, motor_dir := .DIR_NEUTRAL, pos := 0,
    last_update_time := l0, mot_up := up0, mot_dn := dn0 }

/-- `Screen::up_stop_condition()`:
`error_ || pos_ <= SCREEN_UP_STOP_THRESHOLD || endswitch_in()`
(`error_` is truthy iff it differs from `ERR_NONE = 0`). -/
def up_stop_condition (env : Env) (s : Screen) : Bool :=
  decide (s.error ≠ .ERR_NONE) || decide (s.pos ≤ SCREEN_UP_STOP_THRESHOLD)
    || env.endswitch

/-- `Screen::down_stop_condition()`:
`error_ || pos_ >= SCREEN_DN_STOP_THRESHOLD`. -/
def down_stop_condition (s : Screen) : Bool :=
  decide (s.error ≠ .ERR_NONE) || decide (s.pos ≥ SCREEN_DN_STOP_THRESHOLD)

/-- `Screen::set_dir(d)`: early return when `d == motor_dir_`; otherwise the
UP/DOWN branches act only when the respective stop condition is false, and
the NEUTRAL branch always switches both motor outputs off. -/
def set_dir (env : Env) (d : Direction) (s : Screen) : Screen :=
  if d = s.motor_dir then s
  else
    match d with
    | .DIR_UP =>
        if !up_stop_condition env s then
          { s with mot_dn := false, mot_up := true, motor_dir := .DIR_UP,
                   last_update_time := env.now }
        else s
    | .DIR_DOWN =>
        if !down_stop_condition s then
          { s with mot_dn := true, mot_up := false, motor_dir := .DIR_DOWN,
                   last_update_time := env.now }
        else s
    | .DIR_NEUTRAL =>
        { s with mot_dn := false, mot_up := false, motor_dir := .DIR_NEUTRAL }

/-- `Screen::go_home()`. -/
def go_home (env : Env) (s : Screen) : Screen :=
  if s.error = .ERR_SWITCH then s
  else
    let s1 : Screen := { s with error := .ERR_NONE }
    if env.endswitch then s1
    else set_dir env .DIR_UP { s1 with pos := SCREEN_DN_STOP_THRESHOLD }

/-- `Screen::event_rotation_tick()`: records `Clock::now()` in
`last_update_time_`, then moves `pos_` one step according to the direction. -/
def event_rotation_tick (env : Env) (s : Screen) : Screen :=
  let s1 : Screen := { s with last_update_time := env.now }
  match s1.motor_dir with
  | .DIR_UP => { s1 with pos := s1.pos - 1 }
  | .DIR_DOWN => { s1 with pos := s1.pos + 1 }
  | .DIR_NEUTRAL => s1

/-- `Screen::event_endswitch_triggered()`. -/
def event_endswitch_triggered (s : Screen) : Screen :=
  if s.motor_dir ≠ .DIR_DOWN then { s with pos := 0 } else s

/-- `Screen::enter_error_state(type)`: `set_dir(DIR_NEUTRAL); error_ = type;`. -/
def enter_error_state (env : Env) (t : ErrorType) (s : Screen) : Screen :=
  { set_dir env .DIR_NEUTRAL s with error := t }

/-- First `if` of `Screen::check_stop_conditions()`: the rotation-stall
check, `motor_dir_ != DIR_NEUTRAL && now - last_update_time_ >
ms_to_cycles(1000)`. -/
def rot_fault_check (env : Env) (s : Screen) : Screen :=
  if s.motor_dir ≠ .DIR_NEUTRAL
      ∧ sub16 env.now s.last_update_time > ms_to_cycles 1000 then
    enter_error_state env .ERR_ROTATION s
  else s

/-- Second `if` of `Screen::check_stop_conditions()`: the switch-overrun
check, `motor_dir_ == DIR_UP && pos_ <= SCREEN_UP_STOP_THRESHOLD`. -/
def switch_fault_check (env : Env) (s : Screen) : Screen :=
  if s.motor_dir = .DIR_UP ∧ s.pos ≤ SCREEN_UP_STOP_THRESHOLD then
    enter_error_state env .ERR_SWITCH s
  else s

/-- Third `if` of `Screen::check_stop_conditions()`: the normal
(non-faulting) stop that sets the direction to NEUTRAL. -/
def neutral_stop_check (env : Env) (s : Screen) : Screen :=
  if (s.motor_dir = .DIR_UP ∧ up_stop_condition env s = true)
      ∨ (s.motor_dir = .DIR_DOWN ∧ down_stop_condition s = true) then
    set_dir env .DIR_NEUTRAL s
  else s

/-- `Screen::check_stop_conditions()`: the three checks run in source
order on the successively updated state. -/
def check_stop_conditions (env : Env) (s : Screen) : Screen :=
  neutral_stop_check env (switch_fault_check env (rot_fault_check env s))

/-- enum `Button`. -/
inductive Button where
  | BUTTON_ON
  | BUTTON_OFF
  | BUTTON_UP
  | BUTTON_DOWN
  | BUTTON_SET
  | BUTTON_UNKNOWN
deriving DecidableEq, Repr

/-- `DecodeInfrared(buffer)` on a 4-byte frame `b0 b1 b2 b3`. Note the
source preamble check is `buffer[0] != 0xE0 && buffer[1] != 0xD5`: the
frame is rejected early only when BOTH preamble bytes differ. -/
def DecodeInfrared (b0 b1 b2 b3 : Nat) : Button :=
  if b0 ≠ 0xE0 ∧ b1 ≠ 0xD5 then .BUTTON_UNKNOWN
  else if b2 = 0x04 ∧ b3 = 0xFB then .BUTTON_ON
  else if b2 = 0x44 ∧ b3 = 0xBB then .BUTTON_OFF
  else if b2 = 0x06 ∧ b3 = 0xF9 then .BUTTON_UP
  else if b2 = 0x26 ∧ b3 = 0xD9 then .BUTTON_DOWN
  else if b2 = 0x50 ∧ b3 = 0xAF then .BUTTON_SET
  else .BUTTON_UNKNOWN

/-- class `Monoflop`. -/
structure Monoflop where
  duration : Nat
  trigger_time : Nat
  active : Bool
deriving DecidableEq, Repr

/-- `Monoflop::trigger()`: `trigger_time_ = Clock::now(); active_ = true;`. -/
def Monoflop.trigger (now : Nat) (m : Monoflop) : Monoflop :=
  { m with trigger_time := now, active := true }

/-- `Monoflop::is_active()`: returns the stored flag only. -/
def Monoflop.is_active (m : Monoflop) : Bool := m.active

/-- `Monoflop::regular_check()`:
`if (active_ && Clock::now() - trigger_time_ >= duration_) active_ = false;`. -/
def Monoflop.regular_check (now : Nat) (m : Monoflop) : Monoflop :=
  if m.active = true ∧ sub16 now m.trigger_time ≥ m.duration then
    { m with active := false }
  else m

/-- A sequence of `regular_check()` calls at the given clock values, in
order. -/
def Monoflop.run_checks (m : Monoflop) : List Nat → Monoflop
  | [] => m
  | t :: ts => Monoflop.run_checks (Monoflop.regular_check t m) ts

/-- The operations of the ScreenController, each carrying the environment
(clock value and endswitch line) it observes when invoked. -/
inductive Op where
  | set_direction (env : Env) (d : Direction)
  | go_home_op (env : Env)
  | rotation_tick (env : Env)
  | endswitch_triggered
  | check_stop (env : Env)
  | enter_error (env : Env) (t : ErrorType)
deriving DecidableEq, Repr

/-- Interpretation of an operation as a state transformer. -/
def Op.apply : Op → Screen → Screen
  | .set_direction env d, s => set_dir env d s
  | .go_home_op env, s => go_home env s
  | .rotation_tick env, s => event_rotation_tick env s
  | .endswitch_triggered, s => event_endswitch_triggered s
  | .check_stop env, s => check_stop_conditions env s
  | .enter_error env t, s => enter_error_state env t s

/-- Run a sequence of operations, first element first. -/
def runOps : List Op → Screen → Screen
  | [], s => s
  | op :: ops, s => runOps ops (op.apply s)

/-- Whether the operation is the private `enter_error_state` entry point
(excluded from the public-interface claims). -/
def Op.isEnterError : Op → Bool
  | .enter_error _ _ => true
  | _ => false

/-- The safety invariant of claim C4: a non-NONE error forces NEUTRAL. -/
def ScreenInv (s : Screen) : Prop :=
  s.error ≠ .ERR_NONE → s.motor_dir = .DIR_NEUTRAL

/-- The configuration in which SWITCH_FAULT has latched. -/
def stickyState (s : Screen) : Prop :=
  s.error = .ERR_SWITCH ∧ s.motor_dir = .DIR_NEUTRAL

/-! ### Helper lemmas about `set_dir` and `enter_error_state` -/

/-- Commanding NEUTRAL from a moving state clears both outputs and the
direction, touching nothing else. -/
lemma set_dir_neutral_eq (env : Env) (s : Screen) (h : s.motor_dir ≠ .DIR_NEUTRAL) :
    set_dir env .DIR_NEUTRAL s =
      { s with mot_dn := false, mot_up := false, motor_dir := .DIR_NEUTRAL } := by
  unfold set_dir
  rw [if_neg (fun he => h he.symm)]

/-- Commanding NEUTRAL when already NEUTRAL is the early-return no-op. -/
lemma set_dir_neutral_self (env : Env) (s : Screen) (h : s.motor_dir = .DIR_NEUTRAL) :
    set_dir env .DIR_NEUTRAL s = s := by
  unfold set_dir
  rw [if_pos h.symm]

/-- `set_dir` never changes the error field. -/
lemma set_dir_error (env : Env) (d : Direction) (s : Screen) :
    (set_dir env d s).error = s.error := by
  unfold set_dir
  split
  · rfl
  · split
    · split
      · rfl
      · rfl
    · split
      · rfl
      · rfl
    · rfl

/-- After commanding NEUTRAL the direction is NEUTRAL. -/
lemma set_dir_neutral_dir (env : Env) (s : Screen) :
    (set_dir env .DIR_NEUTRAL s).motor_dir = .DIR_NEUTRAL := by
  unfold set_dir
  split
  next h => exact h.symm
  · rfl

/-- `enter_error_state` from a moving state: outputs off, NEUTRAL, error set. -/
lemma enter_error_state_eq (env : Env) (t : ErrorType) (s : Screen)
    (h : s.motor_dir ≠ .DIR_NEUTRAL) :
    enter_error_state env t s =
      { s with mot_dn := false, mot_up := false, motor_dir := .DIR_NEUTRAL,
               error := t } := by
  unfold enter_error_state
  rw [set_dir_neutral_eq env s h]

/-- `enter_error_state` always leaves the direction NEUTRAL. -/
lemma enter_error_state_dir (env : Env) (t : ErrorType) (s : Screen) :
    (enter_error_state env t s).motor_dir = .DIR_NEUTRAL :=
  set_dir_neutral_dir env s

/-- `enter_error_state` sets exactly the requested error. -/
lemma enter_error_state_error (env : Env) (t : ErrorType) (s : Screen) :
    (enter_error_state env t s).error = t := rfl

/-- A state whose error is NONE satisfies the safety invariant vacuously. -/
lemma inv_of_error_none (s : Screen) (h : s.error = .ERR_NONE) : ScreenInv s :=
  fun he => (he h).elim

/-- Requesting UP while the up-stop condition holds is a complete no-op. -/
lemma set_dir_up_refused (env : Env) (s : Screen)
    (h : up_stop_condition env s = true) :
    set_dir env .DIR_UP s = s := by
  unfold set_dir
  split
  · rfl
  · simp [h]

/-- Requesting DOWN while the down-stop condition holds is a complete no-op. -/
lemma set_dir_down_refused (env : Env) (s : Screen)
    (h : down_stop_condition s = true) :
    set_dir env .DIR_DOWN s = s := by
  unfold set_dir
  split
  · rfl
  · simp [h]

/-- Any error other than NONE makes the up-stop condition hold. -/
lemma up_stop_of_error (env : Env) (s : Screen) (h : s.error ≠ .ERR_NONE) :
    up_stop_condition env s = true := by
  simp [up_stop_condition, h]

/-- Any error other than NONE makes the down-stop condition hold. -/
lemma down_stop_of_error (s : Screen) (h : s.error ≠ .ERR_NONE) :
    down_stop_condition s = true := by
  simp [down_stop_condition, h]

/-- The switch-overrun check does nothing from a NEUTRAL state. -/
lemma switch_check_neutral (env : Env) (s : Screen)
    (h : s.motor_dir = .DIR_NEUTRAL) :
    switch_fault_check env s = s := by
  simp [switch_fault_check, h]

/-- The normal-stop check does nothing from a NEUTRAL state. -/
lemma neutral_check_neutral (env : Env) (s : Screen)
    (h : s.motor_dir = .DIR_NEUTRAL) :
    neutral_stop_check env s = s := by
  simp [neutral_stop_check, h]

/-- The rotation-stall check does nothing from a NEUTRAL state. -/
lemma rot_check_neutral (env : Env) (s : Screen)
    (h : s.motor_dir = .DIR_NEUTRAL) :
    rot_fault_check env s = s := by
  simp [rot_fault_check, h]

/-- Central staleness lemma shared by claims C2 and C10: if the screen is
moving and the elapsed (wraparound) time since the last encoder tick
strictly exceeds `ms_to_cycles 1000`, `check_stop_conditions` enters
ROTATION_FAULT and neutralizes the direction — and because the direction is
already NEUTRAL when the second `if` is reached, the switch-overrun check
never fires in the same call. -/
lemma check_stop_stale (env : Env) (s : Screen)
    (hdir : s.motor_dir ≠ .DIR_NEUTRAL)
    (hstale : sub16 env.now s.last_update_time > ms_to_cycles 1000) :
    check_stop_conditions env s =
      { s with mot_dn := false, mot_up := false, motor_dir := .DIR_NEUTRAL,
               error := .ERR_ROTATION } := by
  unfold check_stop_conditions
  have h1 : rot_fault_check env s = enter_error_state env .ERR_ROTATION s := by
    unfold rot_fault_check
    rw [if_pos ⟨hdir, hstale⟩]
  rw [h1, enter_error_state_eq env _ s hdir]
  rw [switch_check_neutral env _ rfl, neutral_check_neutral env _ rfl]

/-- `go_home` returns immediately while the switch fault is latched. -/
lemma go_home_switch_eq (env : Env) (s : Screen) (h : s.error = .ERR_SWITCH) :
    go_home env s = s := by
  unfold go_home
  rw [if_pos h]

/-! ### Claim theorems -/

/-- Claim C1 (code bug): the claim states that any frame whose preamble
differs from `0xE0 0xD5` in at least one of the first two bytes decodes to
UNKNOWN. The source rejects the preamble only when BOTH bytes differ
(`buffer[0] != 0xE0 && buffer[1] != 0xD5`), contradicting the command table
documented next to the `Button` enum: the frame `FF D5 04 FB`, whose first
preamble byte is wrong, decodes to ON instead of UNKNOWN. -/
theorem C1_preamble_and_accepts_bad_frame :
    DecodeInfrared 0xFF 0xD5 0x04 0xFB = Button.BUTTON_ON ∧
    Button.BUTTON_ON ≠ Button.BUTTON_UNKNOWN := by
  decide

/-- Claim C9: the six concrete decode results of the command table: the
five button frames with preamble `E0 D5` map to their buttons, and the
all-zero frame maps to UNKNOWN. -/
theorem C9_decode_table :
    DecodeInfrared 0xE0 0xD5 0x04 0xFB = Button.BUTTON_ON ∧
    DecodeInfrared 0xE0 0xD5 0x44 0xBB = Button.BUTTON_OFF ∧
    DecodeInfrared 0xE0 0xD5 0x06 0xF9 = Button.BUTTON_UP ∧
    DecodeInfrared 0xE0 0xD5 0x26 0xD9 = Button.BUTTON_DOWN ∧
    DecodeInfrared 0xE0 0xD5 0x50 0xAF = Button.BUTTON_SET ∧
    DecodeInfrared 0x00 0x00 0x00 0x00 = Button.BUTTON_UNKNOWN := by
  decide


/-- A concrete environment exactly at the 1000 ms threshold (7812 ticks). -/
def envAtThreshold : Env := { now := 7812, endswitch := false }

/-- A concrete environment just past the 1000 ms threshold (7813 ticks). -/
def envStale : Env := { now := 7813, endswitch := false }

/-- A concrete screen state moving DOWN with last tick at clock 0. -/
def sampleDown : Screen :=
  { error := .ERR_NONE, motor_dir := .DIR_DOWN, pos := 0,
    last_update_time := 0, mot_up := false, mot_dn := true }

/-- A concrete screen state moving UP past the up-stop threshold. -/
def sampleUpOverrun : Screen :=
  { error := .ERR_NONE, motor_dir := .DIR_UP, pos := -4,
    last_update_time := 0, mot_up := true, mot_dn := false }

/-- Claim C2 counterexample: with the screen moving DOWN and exactly
`ms_to_cycles 1000` (= 7812) ticks elapsed since the last encoder tick, the
claimed premise "elapsed ticks ≥ ms_to_cycles(1000)" holds, yet
`check_stop_conditions` does not fault: the source condition is a strict
`>` comparison, so the state is left unchanged with ErrorState = NONE. -/
theorem C2_counterexample :
    sampleDown.motor_dir ≠ .DIR_NEUTRAL ∧
    sub16 envAtThreshold.now sampleDown.last_update_time ≥ ms_to_cycles 1000 ∧
    ¬((check_stop_conditions envAtThreshold sampleDown).error = .ERR_ROTATION ∧
      (check_stop_conditions envAtThreshold sampleDown).motor_dir
        = .DIR_NEUTRAL) := by
  decide

/-- Claim C2 (amended): for every state with Direction ≠ NEUTRAL, if
STRICTLY MORE than `ms_to_cycles 1000` ticks (wraparound elapsed time) have
passed since LastUpdateTime when `check_stop_conditions` is called, then
afterwards ErrorState = ROTATION_FAULT and Direction = NEUTRAL. -/
theorem C2_rotation_fault_on_stale (env : Env) (s : Screen)
    (hdir : s.motor_dir ≠ .DIR_NEUTRAL)
    (hstale : sub16 env.now s.last_update_time > ms_to_cycles 1000) :
    (check_stop_conditions env s).error = .ERR_ROTATION ∧
    (check_stop_conditions env s).motor_dir = .DIR_NEUTRAL := by
  rw [check_stop_stale env s hdir hstale]
  exact ⟨rfl, rfl⟩

/-- Witness for C2: the concrete DOWN-moving state, 7813 ticks stale. -/
theorem C2_rotation_fault_on_stale_witness :
    (check_stop_conditions envStale sampleDown).error = .ERR_ROTATION ∧
    (check_stop_conditions envStale sampleDown).motor_dir = .DIR_NEUTRAL :=
  C2_rotation_fault_on_stale envStale sampleDown (by decide) (by decide)

/-- Claim C10 counterexample: a state in which both fault conditions hold in
the same `check_stop_conditions` call — Direction = UP, 7813 > 7812 ticks
stale, position = -4 ≤ UP_STOP — ends in ROTATION_FAULT, not the claimed
SWITCH_FAULT: the rotation check runs first and neutralizes the direction,
so the switch check (guarded on Direction = UP) never fires. -/
theorem C10_counterexample :
    sampleUpOverrun.motor_dir = .DIR_UP ∧
    sub16 envStale.now sampleUpOverrun.last_update_time > ms_to_cycles 1000 ∧
    sampleUpOverrun.pos ≤ SCREEN_UP_STOP_THRESHOLD ∧
    (check_stop_conditions envStale sampleUpOverrun).error ≠ .ERR_SWITCH := by
  decide

/-- Claim C10 (amended): if in a single `check_stop_conditions` call both
fault conditions hold (Direction = UP, no tick for more than 1000 ms, and
position ≤ UP_STOP), the resulting ErrorState is ROTATION_FAULT, not
SWITCH_FAULT: the rotation-stall check is evaluated first and forces
Direction to NEUTRAL, so the switch-overrun check — which requires
Direction = UP — does not fire and nothing overwrites the error. -/
theorem C10_both_faults_give_rotation (env : Env) (s : Screen)
    (hdir : s.motor_dir = .DIR_UP)
    (hstale : sub16 env.now s.last_update_time > ms_to_cycles 1000)
    (_hpos : s.pos ≤ SCREEN_UP_STOP_THRESHOLD) :
    (check_stop_conditions env s).error = .ERR_ROTATION ∧
    (check_stop_conditions env s).motor_dir = .DIR_NEUTRAL := by
  have hne : s.motor_dir ≠ .DIR_NEUTRAL := by
    rw [hdir]
    intro h
    cases h
  rw [check_stop_stale env s hne hstale]
  exact ⟨rfl, rfl⟩

/-- Witness for C10: the concrete doubly-faulting state. -/
theorem C10_both_faults_give_rotation_witness :
    (check_stop_conditions envStale sampleUpOverrun).error = .ERR_ROTATION ∧
    (check_stop_conditions envStale sampleUpOverrun).motor_dir
      = .DIR_NEUTRAL :=
  C10_both_faults_give_rotation envStale sampleUpOverrun
    (by decide) (by decide) (by decide)

/-- A concrete latched-SWITCH_FAULT screen state. -/
def sampleSwitchFault : Screen :=
  { error := .ERR_SWITCH, motor_dir := .DIR_NEUTRAL, pos := 0,
    last_update_time := 0, mot_up := false, mot_dn := false }

/-- A concrete NEUTRAL screen state with no error. -/
def sampleNeutral : Screen :=
  { error := .ERR_NONE, motor_dir := .DIR_NEUTRAL, pos := 100,
    last_update_time := 5, mot_up := false, mot_dn := false }

/-- Claim C6: while ErrorState = SWITCH_FAULT, `go_home()` returns
immediately and leaves the entire state — position, direction, error,
timestamp and both motor output lines — unchanged. -/
theorem C6_go_home_noop_on_switch_fault (env : Env) (s : Screen)
    (h : s.error = .ERR_SWITCH) :
    go_home env s = s :=
  go_home_switch_eq env s h

/-- Witness for C6: the concrete latched state. -/
theorem C6_go_home_noop_on_switch_fault_witness :
    go_home envStale sampleSwitchFault = sampleSwitchFault :=
  C6_go_home_noop_on_switch_fault envStale sampleSwitchFault rfl

/-- Claim C7: `set_dir(DIR_UP)` is a complete no-op whenever the up-stop
condition (error ≠ NONE, or position ≤ UP_STOP, or endswitch asserted)
holds, and symmetrically `set_dir(DIR_DOWN)` is a complete no-op whenever
the down-stop condition (error ≠ NONE or position ≥ DOWN_STOP) holds. -/
theorem C7_set_dir_refused_at_stops (env : Env) (s : Screen) :
    (up_stop_condition env s = true → set_dir env .DIR_UP s = s) ∧
    (down_stop_condition s = true → set_dir env .DIR_DOWN s = s) :=
  ⟨set_dir_up_refused env s, set_dir_down_refused env s⟩

/-- Witness for C7: a latched-fault state refuses both directions. -/
theorem C7_set_dir_refused_at_stops_witness :
    set_dir envStale .DIR_UP sampleSwitchFault = sampleSwitchFault ∧
    set_dir envStale .DIR_DOWN sampleSwitchFault = sampleSwitchFault :=
  ⟨(C7_set_dir_refused_at_stops envStale sampleSwitchFault).1 (by decide),
   (C7_set_dir_refused_at_stops envStale sampleSwitchFault).2 (by decide)⟩

/-- Claim C8: `event_endswitch_triggered()` leaves the state unchanged when
Direction = DOWN, and sets position to 0 (changing nothing else) when
Direction ∈ {UP, NEUTRAL}, for every starting position. -/
theorem C8_endswitch_event (s : Screen) :
    (s.motor_dir = .DIR_DOWN → event_endswitch_triggered s = s) ∧
    (s.motor_dir ≠ .DIR_DOWN →
      event_endswitch_triggered s = { s with pos := 0 }) := by
  constructor
  · intro h
    simp [event_endswitch_triggered, h]
  · intro h
    simp [event_endswitch_triggered, h]

/-- Witness for C8: a DOWN-moving state keeps its position; a NEUTRAL state
at position 100 is reset to 0. -/
theorem C8_endswitch_event_witness :
    event_endswitch_triggered sampleDown = sampleDown ∧
    event_endswitch_triggered sampleNeutral = { sampleNeutral with pos := 0 } :=
  ⟨(C8_endswitch_event sampleDown).1 rfl,
   (C8_endswitch_event sampleNeutral).2 (by decide)⟩

/-! ### Monoflop lemmas and claim C3 -/

/-- `regular_check` never reactivates an inactive Monoflop, so a whole
sequence of checks leaves an inactive Monoflop untouched. -/
lemma run_checks_inactive (ts : List Nat) (m : Monoflop) (h : m.active = false) :
    Monoflop.run_checks m ts = m := by
  induction ts generalizing m with
  | nil => rfl
  | cons u rest ih =>
      have h1 : Monoflop.regular_check u m = m := by
        simp [Monoflop.regular_check, h]
      simp only [Monoflop.run_checks]
      rw [h1]
      exact ih m h

/-- The active flag after a sequence of `regular_check` calls on an active
Monoflop is true exactly when no check happened at an expired time. -/
lemma run_checks_active_iff (ts : List Nat) (m : Monoflop) (h : m.active = true) :
    (Monoflop.run_checks m ts).active = true ↔
      ∀ u ∈ ts, sub16 u m.trigger_time < m.duration := by
  induction ts generalizing m with
  | nil =>
      simp only [Monoflop.run_checks, h, List.not_mem_nil]
      simp
  | cons u rest ih =>
      simp only [Monoflop.run_checks]
      by_cases hc : sub16 u m.trigger_time ≥ m.duration
      · have h1 : Monoflop.regular_check u m = { m with active := false } := by
          simp [Monoflop.regular_check, h, hc]
        rw [h1, run_checks_inactive rest _ rfl]
        constructor
        · intro hx
          simp at hx
        · intro hall
          have := hall u (List.mem_cons_self u rest)
          omega
      · have h1 : Monoflop.regular_check u m = m := by
          simp [Monoflop.regular_check, hc]
        rw [h1, ih m h]
        constructor
        · intro hall v hv
          rcases List.mem_cons.mp hv with h2 | h2
          · subst h2
            omega
          · exact hall v h2
        · intro hall v hv
          exact hall v (List.mem_cons_of_mem u hv)

/-- Claim C3 counterexample: a Monoflop of duration 5 triggered at clock 0
and never checked is still reported active at a clock value of 10, i.e.
with elapsed time 10 ≥ 5 past the trigger: `is_active()` reads only the
stored flag, so expiry is NOT independent of the `regular_check` calls. -/
theorem C3_counterexample :
    sub16 10 0 ≥ 5 ∧
    (Monoflop.run_checks
      (Monoflop.trigger 0 { duration := 5, trigger_time := 0, active := false })
      []).is_active = true := by
  decide

/-- Claim C3 (amended): after `trigger()` at time t, `is_active()` depends
only on the intervening `regular_check()` history: it returns true
immediately and stays true as long as every `regular_check()` happened at a
time with (wraparound) elapsed time < duration; it returns false exactly
when some `regular_check()` was called at an elapsed time ≥ duration. -/
theorem C3_monoflop_active_characterization (dur t0 t : Nat) (a0 : Bool)
    (ts : List Nat) :
    (Monoflop.run_checks
        (Monoflop.trigger t { duration := dur, trigger_time := t0, active := a0 })
        ts).is_active = true ↔
      ∀ u ∈ ts, sub16 u t < dur := by
  have h := run_checks_active_iff ts
    (Monoflop.trigger t { duration := dur, trigger_time := t0, active := a0 }) rfl
  simpa [Monoflop.is_active] using h

/-! ### Invariant machinery for claims C4 and C5 -/

/-- `event_rotation_tick` changes neither the error nor the direction. -/
lemma tick_error_dir (env : Env) (s : Screen) :
    (event_rotation_tick env s).error = s.error ∧
    (event_rotation_tick env s).motor_dir = s.motor_dir := by
  simp only [event_rotation_tick]
  cases h : s.motor_dir <;> simp [h]

/-- `event_endswitch_triggered` changes neither the error nor the direction. -/
lemma endswitch_error_dir (s : Screen) :
    (event_endswitch_triggered s).error = s.error ∧
    (event_endswitch_triggered s).motor_dir = s.motor_dir := by
  unfold event_endswitch_triggered
  split <;> exact ⟨rfl, rfl⟩

/-- `set_dir` preserves the invariant: UP/DOWN only succeed from an
error-free state, and NEUTRAL establishes the invariant directly. -/
lemma set_dir_inv (env : Env) (d : Direction) (s : Screen) (h : ScreenInv s) :
    ScreenInv (set_dir env d s) := by
  unfold set_dir
  split
  · exact h
  · split
    · split
      next hcond =>
        intro herr
        exfalso
        have hfalse : up_stop_condition env s = false := by
          simpa using hcond
        have hnone : s.error = .ERR_NONE := by
          simp [up_stop_condition] at hfalse
          exact hfalse.1.1
        exact herr hnone
      next => exact h
    · split
      next hcond =>
        intro herr
        exfalso
        have hfalse : down_stop_condition s = false := by
          simpa using hcond
        have hnone : s.error = .ERR_NONE := by
          simp [down_stop_condition] at hfalse
          exact hfalse.1
        exact herr hnone
      next => exact h
    · intro _
      rfl

/-- `go_home` preserves the invariant: it either early-returns, or leaves
the error cleared to NONE. -/
lemma go_home_inv (env : Env) (s : Screen) (h : ScreenInv s) :
    ScreenInv (go_home env s) := by
  simp only [go_home]
  split
  · exact h
  · split
    · intro herr
      exact absurd rfl herr
    · exact inv_of_error_none _ (by rw [set_dir_error])

/-- `event_rotation_tick` preserves the invariant. -/
lemma tick_inv (env : Env) (s : Screen) (h : ScreenInv s) :
    ScreenInv (event_rotation_tick env s) := by
  intro herr
  rw [(tick_error_dir env s).2]
  apply h
  rw [← (tick_error_dir env s).1]
  exact herr

/-- `event_endswitch_triggered` preserves the invariant. -/
lemma endswitch_inv (s : Screen) (h : ScreenInv s) :
    ScreenInv (event_endswitch_triggered s) := by
  intro herr
  rw [(endswitch_error_dir s).2]
  apply h
  rw [← (endswitch_error_dir s).1]
  exact herr

/-- `enter_error_state` establishes the invariant outright. -/
lemma enter_error_inv (env : Env) (t : ErrorType) (s : Screen) :
    ScreenInv (enter_error_state env t s) :=
  fun _ => enter_error_state_dir env t s

/-- The rotation-stall check preserves the invariant. -/
lemma rot_check_inv (env : Env) (s : Screen) (h : ScreenInv s) :
    ScreenInv (rot_fault_check env s) := by
  unfold rot_fault_check
  split
  · exact enter_error_inv env _ s
  · exact h

/-- The switch-overrun check preserves the invariant. -/
lemma switch_check_inv (env : Env) (s : Screen) (h : ScreenInv s) :
    ScreenInv (switch_fault_check env s) := by
  unfold switch_fault_check
  split
  · exact enter_error_inv env _ s
  · exact h

/-- The normal-stop check preserves the invariant. -/
lemma neutral_check_inv (env : Env) (s : Screen) (h : ScreenInv s) :
    ScreenInv (neutral_stop_check env s) := by
  unfold neutral_stop_check
  split
  · intro _
    exact set_dir_neutral_dir env s
  · exact h

/-- Every single operation preserves the invariant. -/
lemma step_inv (op : Op) (s : Screen) (h : ScreenInv s) :
    ScreenInv (op.apply s) := by
  cases op with
  | set_direction env d => exact set_dir_inv env d s h
  | go_home_op env => exact go_home_inv env s h
  | rotation_tick env => exact tick_inv env s h
  | endswitch_triggered => exact endswitch_inv s h
  | check_stop env =>
      exact neutral_check_inv env _ (switch_check_inv env _ (rot_check_inv env s h))
  | enter_error env t => exact enter_error_inv env t s

/-- A single public (non-`enter_error_state`) operation keeps the latched
SWITCH_FAULT configuration latched. -/
lemma sticky_step (op : Op) (s : Screen) (hop : op.isEnterError = false)
    (h : stickyState s) : stickyState (op.apply s) := by
  obtain ⟨he, hd⟩ := h
  cases op with
  | set_direction env d =>
      have herr : s.error ≠ .ERR_NONE := by
        rw [he]
        intro hx
        cases hx
      cases d with
      | DIR_NEUTRAL =>
          show stickyState (set_dir env .DIR_NEUTRAL s)
          rw [set_dir_neutral_self env s hd]
          exact ⟨he, hd⟩
      | DIR_UP =>
          show stickyState (set_dir env .DIR_UP s)
          rw [set_dir_up_refused env s (up_stop_of_error env s herr)]
          exact ⟨he, hd⟩
      | DIR_DOWN =>
          show stickyState (set_dir env .DIR_DOWN s)
          rw [set_dir_down_refused env s (down_stop_of_error s herr)]
          exact ⟨he, hd⟩
  | go_home_op env =>
      show stickyState (go_home env s)
      rw [go_home_switch_eq env s he]
      exact ⟨he, hd⟩
  | rotation_tick env =>
      show stickyState (event_rotation_tick env s)
      refine ⟨?_, ?_⟩
      · rw [(tick_error_dir env s).1]
        exact he
      · rw [(tick_error_dir env s).2]
        exact hd
  | endswitch_triggered =>
      show stickyState (event_endswitch_triggered s)
      refine ⟨?_, ?_⟩
      · rw [(endswitch_error_dir s).1]
        exact he
      · rw [(endswitch_error_dir s).2]
        exact hd
  | check_stop env =>
      show stickyState (check_stop_conditions env s)
      unfold check_stop_conditions
      rw [rot_check_neutral env s hd, switch_check_neutral env s hd,
        neutral_check_neutral env s hd]
      exact ⟨he, hd⟩
  | enter_error env t =>
      simp [Op.isEnterError] at hop

/-- A sequence of public operations keeps SWITCH_FAULT latched. -/
lemma sticky_run (ops : List Op) :
    ∀ s : Screen, (∀ op ∈ ops, op.isEnterError = false) → stickyState s →
      stickyState (runOps ops s) := by
  induction ops with
  | nil =>
      intro s _ h
      exact h
  | cons op rest ih =>
      intro s hops h
      show stickyState (runOps rest (op.apply s))
      exact ih (op.apply s) (fun o ho => hops o (List.mem_cons_of_mem op ho))
        (sticky_step op s (hops op (List.mem_cons_self op rest)) h)

/-- Claim C4: the invariant "ErrorState ≠ NONE implies Direction = NEUTRAL"
holds in the initial state (for any uninitialized timestamp and output
lines) and is preserved by every ScreenController operation. -/
theorem C4_error_forces_neutral_invariant (l0 : Nat) (up0 dn0 : Bool)
    (op : Op) (s : Screen) (h : ScreenInv s) :
    ScreenInv (screenInit l0 up0 dn0) ∧ ScreenInv (op.apply s) :=
  ⟨inv_of_error_none _ rfl, step_inv op s h⟩

/-- Witness for C4: the initial state and one `check_stop_conditions` step
from a concrete moving state. -/
theorem C4_error_forces_neutral_invariant_witness :
    ScreenInv (screenInit 0 false false) ∧
    ScreenInv (Op.apply (.check_stop envStale) sampleDown) :=
  C4_error_forces_neutral_invariant 0 false false (.check_stop envStale)
    sampleDown (fun herr => absurd rfl herr)

/-- A concrete sequence of the five public ScreenController operations. -/
def sampleOps : List Op :=
  [Op.go_home_op envStale, Op.endswitch_triggered, Op.check_stop envStale,
    Op.set_direction envStale .DIR_DOWN, Op.rotation_tick envStale]

/-- Claim C5: once `enter_error_state(ERR_SWITCH)` has latched the switch
fault, no sequence of public ScreenController operations (set_dir, go_home,
event_rotation_tick, event_endswitch_triggered, check_stop_conditions)
ever changes the error away from SWITCH_FAULT. -/
theorem C5_switch_fault_sticky (env : Env) (s : Screen) (ops : List Op)
    (hops : ∀ op ∈ ops, op.isEnterError = false) :
    (runOps ops (enter_error_state env .ERR_SWITCH s)).error = .ERR_SWITCH :=
  (sticky_run ops (enter_error_state env .ERR_SWITCH s) hops
    ⟨rfl, enter_error_state_dir env .ERR_SWITCH s⟩).1

/-- Witness for C5: the concrete operation sequence on a latched state. -/
theorem C5_switch_fault_sticky_witness :
    (runOps sampleOps
      (enter_error_state envStale .ERR_SWITCH sampleDown)).error
      = .ERR_SWITCH :=
  C5_switch_fault_sticky envStale sampleDown sampleOps (by decide)

end RcScreen
